import Mathlib

/-!
# BurningSawals — verification of the phone-OTP authentication core

Shallow embedding of the OTP issuance/verification service
(`src/services/otp.service.ts`), the phone/OTP utilities
(`src/utils/phoneValidation.ts`), and the sign-then-encrypt token layer
(`src/utils/tokens.ts`), together with theorems settling the frozen claims.

Timestamps are natural numbers (milliseconds since epoch for the OTP layer,
seconds for the JWT layer, matching the units each source file uses).
The PBKDF2 hash and the random salt are external cryptographic primitives:
operations that use them take the hash function and the concrete salt/code
values as explicit parameters, so theorems quantify over them.
-/

namespace BurningSawals

/-! ## Phone validation utilities (`src/utils/phoneValidation.ts`) -/

/-- `phoneNumber.replace(/\D/g, "")` — keep only digit characters. -/
def cleanDigits (s : String) : String :=
  String.mk (s.data.filter Char.isDigit)

/-- `isValidIndianPhoneNumber`: strip non-digits, require exactly 10 digits
with leading digit 6/7/8/9. -/
def isValidIndianPhoneNumber (phoneNumber : String) : Bool :=
  let cleaned := cleanDigits phoneNumber
  if cleaned.length ≠ 10 then
    false
  else
    match cleaned.data with
    | [] => false
    | c :: _ => c == '6' || c == '7' || c == '8' || c == '9'

/-- `normalizePhoneNumber`: strip non-digits, drop a `91` country code from a
12-digit result or a leading `0` from an 11-digit result, otherwise return the
cleaned digits. -/
def normalizePhoneNumber (phoneNumber : String) : String :=
  let cleaned := cleanDigits phoneNumber
  if cleaned.length = 12 ∧ cleaned.startsWith "91" then
    cleaned.drop 2
  else if cleaned.length = 11 ∧ cleaned.startsWith "0" then
    cleaned.drop 1
  else
    cleaned

/-- `generateOTP`: `Math.floor(100000 + Math.random() * 900000)`, with the
value of `Math.random()` (a number in `[0, 1)`) modelled as a rational
parameter. -/
def generateOTP (q : ℚ) : ℤ :=
  ⌊(100000 : ℚ) + q * 900000⌋

/-- `isValidOTP`: the regex `/^\d{6}$/` — exactly six digit characters. -/
def isValidOTP (otp : String) : Bool :=
  otp.length == 6 && otp.data.all Char.isDigit

/-- Whether `generateOTP` can ever produce a value below 100000 — i.e. a code
whose 6-digit rendering would need a leading zero. -/
def LeadingZeroPossible : Prop :=
  ∃ q : ℚ, 0 ≤ q ∧ q < 1 ∧ generateOTP q < 100000

/-! ## Data model (`prisma` tables `otps` and `users` as used by the service) -/

/-- A row of the `otps` table as created and read by the OTP service.
`otp_hash` holds the PBKDF2 digest, `salt` abstracts the 16 random bytes. -/
structure OtpRecord where
  otp_id : Nat
  phone_number : String
  otp_hash : String
  salt : Nat
  created_at : Nat
  expires_at : Nat
  attempts : Nat
  max_attempts : Nat
  consumed_at : Option Nat
  deriving DecidableEq, Repr

/-- A row of the `users` table as touched by `verifyOTP`. -/
structure UserIdentity where
  user_id : Nat
  phone_number : String
  user_name : String
  auth_provider : String
  is_phone_verified : Bool
  last_login_at : Option Nat
  deriving DecidableEq, Repr

/-- The persistent store: the two tables plus id sequences. -/
structure Store where
  otps : List OtpRecord
  users : List UserIdentity
  nextOtpId : Nat
  nextUserId : Nat
  deriving DecidableEq, Repr

/-- The `where` clause of `verifyOTP`'s `findFirst`: same phone number (raw
string equality), `expires_at > now`, `consumed_at` null. -/
def isActiveOtp (phone : String) (now : Nat) (r : OtpRecord) : Bool :=
  r.phone_number == phone && decide (now < r.expires_at) && r.consumed_at.isNone

/-- Accumulator step selecting the record with the greatest `created_at`
(keeping the earlier row on ties). -/
def pickLatest (acc : Option OtpRecord) (r : OtpRecord) : Option OtpRecord :=
  match acc with
  | none => some r
  | some a => if r.created_at > a.created_at then some r else some a

/-- `prisma.otps.findFirst({where: …, orderBy: {created_at: "desc"}})`:
among the records matching `isActiveOtp`, the one with the greatest
`created_at` (the first such in table order on ties). -/
def findActiveOtp (otps : List OtpRecord) (phone : String) (now : Nat) :
    Option OtpRecord :=
  (otps.filter (isActiveOtp phone now)).foldl pickLatest none

/-- `prisma.otps.update({where: {otp_id}})` — rewrite the rows with this id. -/
def updateOtp (otps : List OtpRecord) (id : Nat) (f : OtpRecord → OtpRecord) :
    List OtpRecord :=
  otps.map fun r => if r.otp_id == id then f r else r

/-- `prisma.users.findUnique({where: {phone_number}})`. -/
def findUserByPhone (users : List UserIdentity) (phone : String) :
    Option UserIdentity :=
  users.find? fun u => u.phone_number == phone

/-- `prisma.users.update({where: {user_id}})`. -/
def updateUser (users : List UserIdentity) (id : Nat)
    (f : UserIdentity → UserIdentity) : List UserIdentity :=
  users.map fun u => if u.user_id == id then f u else u

/-! ## OTP service (`src/services/otp.service.ts`) -/

/-- Result shape of `generateAndSendOTP`. -/
structure OTPResult where
  success : Bool
  message : String
  otpId : Option Nat
  deriving DecidableEq, Repr

/-- Result shape of `verifyOTP`. -/
structure VerifyOTPResult where
  success : Bool
  message : String
  userId : Option Nat
  isNewUser : Option Bool
  deriving DecidableEq, Repr

/-- Outcome of the Fast2SMS interaction inside `sendOTP`: no API key
configured, the provider accepted (`response.data.return === true`), the
provider answered with anything else, or the HTTP request threw. -/
inductive SmsOutcome
  | notConfigured
  | providerAccepted
  | providerRejected
  | requestThrew
  deriving DecidableEq, Repr

/-- `sendOTP`: the provider-accepted path returns `true`; every other
provider outcome falls through to the console-logging fallback and the
function still returns `true`. (The final `catch → false` guards only the
logging calls, which cannot fail in this model.) -/
def sendOTP (outcome : SmsOutcome) : Bool :=
  match outcome with
  | .providerAccepted => true
  | .providerRejected => true
  | .requestThrew => true
  | .notConfigured => true

/-- `generateAndSendOTP`: validate the raw phone string, hash the generated
code with a fresh salt, insert the record (10-minute expiry, `attempts` 0,
`max_attempts` 5), dispatch, and roll the insert back if dispatch reports
failure. The generated code, the salt, the clock and the SMS outcome are
parameters; the record stores the raw `phoneNumber` argument. -/
def generateAndSendOTP (hash : String → Nat → String) (s : Store)
    (phoneNumber : String) (otp : String) (salt : Nat) (now : Nat)
    (sms : SmsOutcome) : OTPResult × Store :=
  if ¬isValidIndianPhoneNumber phoneNumber then
    ({ success := false, message := "Invalid phone number format",
       otpId := none }, s)
  else
    let otpHash := hash otp salt
    let record : OtpRecord :=
      { otp_id := s.nextOtpId
        phone_number := phoneNumber
        otp_hash := otpHash
        salt := salt
        created_at := now
        expires_at := now + 10 * 60 * 1000
        attempts := 0
        max_attempts := 5
        consumed_at := none }
    let s1 : Store :=
      { s with otps := s.otps ++ [record], nextOtpId := s.nextOtpId + 1 }
    if ¬sendOTP sms then
      let s2 : Store :=
        { s1 with otps := s1.otps.filter fun r => r.otp_id ≠ record.otp_id }
      ({ success := false, message := "Failed to send OTP", otpId := none },
       s2)
    else
      ({ success := true, message := "OTP sent successfully",
         otpId := some record.otp_id }, s1)

/-- `verifyOTP`: validate the code format, select the latest active record
for the raw phone string, enforce the attempt budget, compare hashes,
consume on match, then create or update the user identity. (The
suspicious-activity check at the top of the source function only logs and
never alters control flow, so it has no counterpart here.) -/
def verifyOTP (hash : String → Nat → String) (s : Store)
    (phoneNumber otp : String) (userName : Option String) (now : Nat) :
    VerifyOTPResult × Store :=
  if ¬isValidOTP otp then
    ({ success := false, message := "Invalid OTP format",
       userId := none, isNewUser := none }, s)
  else
    match findActiveOtp s.otps phoneNumber now with
    | none =>
        ({ success := false, message := "Invalid or expired OTP",
           userId := none, isNewUser := none }, s)
    | some otpRecord =>
        if otpRecord.attempts ≥ otpRecord.max_attempts then
          ({ success := false, message := "Maximum OTP attempts exceeded",
             userId := none, isNewUser := none }, s)
        else if hash otp otpRecord.salt ≠ otpRecord.otp_hash then
          let bumped := updateOtp s.otps otpRecord.otp_id
            (fun r => { r with attempts := otpRecord.attempts + 1 })
          let s1 : Store := { s with otps := bumped }
          ({ success := false, message := "Invalid OTP",
             userId := none, isNewUser := none }, s1)
        else
          let consumed := updateOtp s.otps otpRecord.otp_id
            (fun r => { r with consumed_at := some now })
          let s1 : Store := { s with otps := consumed }
          match findUserByPhone s1.users phoneNumber with
          | none =>
              let u : UserIdentity :=
                { user_id := s1.nextUserId
                  phone_number := phoneNumber
                  user_name := userName.getD ("User_" ++ phoneNumber)
                  auth_provider := "phone"
                  is_phone_verified := true
                  last_login_at := none }
              let s2 : Store :=
                { s1 with users := s1.users ++ [u]
                          nextUserId := s1.nextUserId + 1 }
              ({ success := true,
                 message := "User created and verified successfully",
                 userId := some u.user_id, isNewUser := some true }, s2)
          | some u =>
              let touched := updateUser s1.users u.user_id
                (fun x => { x with is_phone_verified := true,
                                   last_login_at := some now })
              let s2 : Store := { s1 with users := touched }
              ({ success := true, message := "User verified successfully",
                 userId := some u.user_id, isNewUser := some false }, s2)

/-- One invocation of `verifyOTP`: the arguments a client supplies plus the
clock reading at call time. -/
structure VerifyCall where
  phone : String
  code : String
  userName : Option String
  time : Nat
  deriving DecidableEq, Repr

/-- Run a sequence of `verifyOTP` calls, threading the store. -/
def runVerifyCalls (hash : String → Nat → String) (calls : List VerifyCall)
    (s : Store) : Store :=
  calls.foldl (fun st c => (verifyOTP hash st c.phone c.code c.userName c.time).2) s

/-! ## Token layer (`src/utils/tokens.ts`)

The JOSE primitives are modelled at claim level: a signed JWT is its payload
together with the HMAC key that signed it; a JWE is the signed JWT together
with the key pair identifier it was encrypted under. Decryption succeeds
exactly when the private key matches the encryption key, and signature
verification exactly when the secrets match — the honest-cryptography
abstraction of HS256 and RSA-OAEP-256. Times are in seconds here, as in the
JWT `iat`/`exp` claims. -/

/-- The JWT claims relevant to signing and verification. -/
structure JwtClaims where
  sub : Option String
  phone_number : Option String
  iat : Nat
  exp : Nat
  iss : String
  aud : String
  deriving DecidableEq, Repr

/-- A compact JWS: payload plus the symmetric secret that produced the MAC. -/
structure SignedJwt where
  payload : JwtClaims
  macKey : String
  deriving DecidableEq, Repr

/-- A compact JWE: the wrapped JWS plus the key-pair identifier used to
encrypt it. -/
structure Jwe where
  plaintext : SignedJwt
  encKeyId : String
  deriving DecidableEq, Repr

/-- The single failure outcome of the authentication gate. -/
inductive AuthError
  | Unauthorized
  deriving DecidableEq, Repr

/-- `makeSignedJwt`: sign the payload with the shared secret after stamping
`iat := now`, `exp := now + 7 days`, issuer `"your-api"` and audience
`"your-web"` — `setIssuedAt`, `setExpirationTime("7d")`, `setIssuer`,
`setAudience` overwrite any values the caller put in the payload. -/
def makeSignedJwt (secret : String) (payload : JwtClaims) (now : Nat) :
    SignedJwt :=
  { payload :=
      { payload with
          iat := now
          exp := now + 7 * 24 * 60 * 60
          iss := "your-api"
          aud := "your-web" }
    macKey := secret }

/-- `encryptJwt`: wrap the compact JWS under the RSA public key. -/
def encryptJwt (pubKeyId : String) (jws : SignedJwt) : Jwe :=
  { plaintext := jws, encKeyId := pubKeyId }

/-- `decryptAndVerify`: decrypt with the private key, then `jwtVerify`
against the shared secret with `issuer: "burning-sawals-api"`,
`audience: "burning-sawals"` and the standard expiry check. Any failure —
wrong key, bad MAC, issuer/audience mismatch, expired — is the single
`Unauthorized` outcome. -/
def decryptAndVerify (privKeyId secret : String) (jwe : Jwe) (now : Nat) :
    Except AuthError JwtClaims :=
  if jwe.encKeyId ≠ privKeyId then
    .error .Unauthorized
  else
    let jws := jwe.plaintext
    if jws.macKey ≠ secret then
      .error .Unauthorized
    else if jws.payload.iss ≠ "burning-sawals-api" then
      .error .Unauthorized
    else if jws.payload.aud ≠ "burning-sawals" then
      .error .Unauthorized
    else if jws.payload.exp ≤ now then
      .error .Unauthorized
    else
      .ok jws.payload

/-! ## Concrete fixtures used by witnesses and counterexamples -/

/-- Concrete injective stand-in for the PBKDF2 hash, used to instantiate the
hash parameter at concrete inputs. -/
def hashW (code : String) (salt : Nat) : String :=
  code ++ "#" ++ toString salt

/-- An empty store. -/
def storeEmpty : Store :=
  { otps := [], users := [], nextOtpId := 1, nextUserId := 1 }

/-- A single fresh OTP record for phone "9876543210" whose code is "123456"
(salt 7), created at t = 1000 ms. -/
def recordW : OtpRecord :=
  { otp_id := 1, phone_number := "9876543210", otp_hash := hashW "123456" 7,
    salt := 7, created_at := 1000, expires_at := 601000, attempts := 0,
    max_attempts := 5, consumed_at := none }

/-- A store holding exactly `recordW`. -/
def storeOne : Store :=
  { otps := [recordW], users := [], nextOtpId := 2, nextUserId := 1 }

/-- A second, later OTP record for the same phone (code "654321", salt 9),
created after `recordW` was consumed. -/
def recordW2 : OtpRecord :=
  { otp_id := 2, phone_number := "9876543210", otp_hash := hashW "654321" 9,
    salt := 9, created_at := 5000, expires_at := 605000, attempts := 0,
    max_attempts := 5, consumed_at := none }

/-- Five wrong-code verify calls against `recordW`. -/
def wrongCallsW : List VerifyCall :=
  [{ phone := "9876543210", code := "000000", userName := none, time := 2000 },
   { phone := "9876543210", code := "000001", userName := none, time := 2100 },
   { phone := "9876543210", code := "000002", userName := none, time := 2200 },
   { phone := "9876543210", code := "000003", userName := none, time := 2300 },
   { phone := "9876543210", code := "000004", userName := none, time := 2400 }]

/-! ## Helper lemmas -/

theorem generateOTP_lower {q : ℚ} (h : 0 ≤ q) : 100000 ≤ generateOTP q := by
  unfold generateOTP
  rw [Int.le_floor]
  have hq : (0 : ℚ) ≤ q * 900000 := by positivity
  push_cast
  linarith

theorem generateOTP_upper {q : ℚ} (h : q < 1) : generateOTP q ≤ 999999 := by
  unfold generateOTP
  have h2 : (100000 : ℚ) + q * 900000 < ((1000000 : ℤ) : ℚ) := by
    push_cast
    nlinarith
  have h3 := Int.floor_lt.mpr h2
  omega

theorem generateAndSendOTP_valid (hash : String → Nat → String) (s : Store)
    (phoneNumber otp : String) (salt now : Nat) (sms : SmsOutcome)
    (hval : isValidIndianPhoneNumber phoneNumber = true) :
    generateAndSendOTP hash s phoneNumber otp salt now sms =
      ({ success := true, message := "OTP sent successfully",
         otpId := some s.nextOtpId },
       { s with
           otps := s.otps ++
             [{ otp_id := s.nextOtpId, phone_number := phoneNumber,
                otp_hash := hash otp salt, salt := salt, created_at := now,
                expires_at := now + 10 * 60 * 1000, attempts := 0,
                max_attempts := 5, consumed_at := none }]
           nextOtpId := s.nextOtpId + 1 }) := by
  have hsend : sendOTP sms = true := by cases sms <;> rfl
  simp [generateAndSendOTP, hval, hsend]

theorem sendOTP_eq_true (o : SmsOutcome) : sendOTP o = true := by
  cases o <;> rfl

theorem foldl_pickLatest_eq_some {l : List OtpRecord} {acc : Option OtpRecord}
    {r : OtpRecord} (h : l.foldl pickLatest acc = some r) :
    r ∈ l ∨ acc = some r := by
  induction l generalizing acc with
  | nil => exact Or.inr h
  | cons x xs ih =>
      rcases ih h with hmem | hacc
      · exact Or.inl (List.mem_cons_of_mem x hmem)
      · cases acc with
        | none =>
            simp only [pickLatest] at hacc
            have hxr : x = r := Option.some.inj hacc
            exact Or.inl (hxr ▸ List.mem_cons_self x xs)
        | some a =>
            simp only [pickLatest] at hacc
            by_cases hc : x.created_at > a.created_at
            · rw [if_pos hc] at hacc
              have hxr : x = r := Option.some.inj hacc
              exact Or.inl (hxr ▸ List.mem_cons_self x xs)
            · rw [if_neg hc] at hacc
              exact Or.inr hacc

theorem findActiveOtp_mem {l : List OtpRecord} {p : String} {t : Nat}
    {r : OtpRecord} (h : findActiveOtp l p t = some r) :
    r ∈ l ∧ isActiveOtp p t r = true := by
  unfold findActiveOtp at h
  rcases foldl_pickLatest_eq_some h with hmem | hacc
  · exact ⟨List.mem_of_mem_filter hmem, List.of_mem_filter hmem⟩
  · cases hacc

theorem foldl_pickLatest_const {r : OtpRecord} :
    ∀ l : List OtpRecord, (∀ x ∈ l, x = r) →
      l.foldl pickLatest (some r) = some r := by
  intro l
  induction l with
  | nil => intro _; rfl
  | cons x xs ih =>
      intro hall
      have hx : x = r := hall x (List.mem_cons_self x xs)
      subst hx
      have : pickLatest (some x) x = some x := by
        simp [pickLatest]
      rw [List.foldl_cons, this]
      exact ih fun y hy => hall y (List.mem_cons_of_mem x hy)

theorem findActiveOtp_unique {l : List OtpRecord} {p : String} {t : Nat}
    {r : OtpRecord} (hr : r ∈ l) (ha : isActiveOtp p t r = true)
    (hu : ∀ x ∈ l, isActiveOtp p t x = true → x = r) :
    findActiveOtp l p t = some r := by
  unfold findActiveOtp
  have hall : ∀ x ∈ l.filter (isActiveOtp p t), x = r := by
    intro x hx
    exact hu x (List.mem_of_mem_filter hx) (List.of_mem_filter hx)
  have hmem : r ∈ l.filter (isActiveOtp p t) := List.mem_filter.mpr ⟨hr, ha⟩
  cases hfil : l.filter (isActiveOtp p t) with
  | nil => rw [hfil] at hmem; cases hmem
  | cons x xs =>
      have hx : x = r := hall x (by rw [hfil]; exact List.mem_cons_self x xs)
      subst hx
      rw [List.foldl_cons]
      show xs.foldl pickLatest (pickLatest none x) = some x
      have : pickLatest none x = some x := rfl
      rw [this]
      exact foldl_pickLatest_const xs fun y hy =>
        hall y (by rw [hfil]; exact List.mem_cons_of_mem x hy)

theorem findActiveOtp_none {l : List OtpRecord} {p : String} {t : Nat}
    (h : ∀ x ∈ l, isActiveOtp p t x = false) :
    findActiveOtp l p t = none := by
  unfold findActiveOtp
  have : l.filter (isActiveOtp p t) = [] := by
    apply List.filter_eq_nil_iff.mpr
    intro a ha
    simp [h a ha]
  rw [this]
  rfl

theorem mem_updateOtp {l : List OtpRecord} {id : Nat} {f : OtpRecord → OtpRecord}
    {x : OtpRecord} (h : x ∈ updateOtp l id f) :
    ∃ y ∈ l, x = if y.otp_id == id then f y else y := by
  unfold updateOtp at h
  rcases List.mem_map.mp h with ⟨y, hy, hx⟩
  exact ⟨y, hy, hx.symm⟩

theorem verifyOTP_badFormat (hash : String → Nat → String) (s : Store)
    (phone code : String) (userName : Option String) (now : Nat)
    (hfmt : isValidOTP code = false) :
    verifyOTP hash s phone code userName now =
      ({ success := false, message := "Invalid OTP format",
         userId := none, isNewUser := none }, s) := by
  unfold verifyOTP
  rw [hfmt]
  simp

theorem verifyOTP_noRecord (hash : String → Nat → String) (s : Store)
    (phone code : String) (userName : Option String) (now : Nat)
    (hfmt : isValidOTP code = true)
    (hnone : findActiveOtp s.otps phone now = none) :
    verifyOTP hash s phone code userName now =
      ({ success := false, message := "Invalid or expired OTP",
         userId := none, isNewUser := none }, s) := by
  unfold verifyOTP
  rw [hfmt, hnone]
  simp

theorem verifyOTP_maxAttempts (hash : String → Nat → String) (s : Store)
    (phone code : String) (userName : Option String) (now : Nat)
    (r : OtpRecord) (hfind : findActiveOtp s.otps phone now = some r)
    (hfmt : isValidOTP code = true)
    (hge : r.max_attempts ≤ r.attempts) :
    verifyOTP hash s phone code userName now =
      ({ success := false, message := "Maximum OTP attempts exceeded",
         userId := none, isNewUser := none }, s) := by
  unfold verifyOTP
  rw [hfmt, hfind]
  simp [hge]

theorem verifyOTP_wrongCode (hash : String → Nat → String) (s : Store)
    (phone code : String) (userName : Option String) (now : Nat)
    (r : OtpRecord) (hfind : findActiveOtp s.otps phone now = some r)
    (hfmt : isValidOTP code = true)
    (hatt : r.attempts < r.max_attempts)
    (hne : hash code r.salt ≠ r.otp_hash) :
    verifyOTP hash s phone code userName now =
      ({ success := false, message := "Invalid OTP",
         userId := none, isNewUser := none },
       { s with otps := updateOtp s.otps r.otp_id
                    (fun x => { x with attempts := r.attempts + 1 }) }) := by
  unfold verifyOTP
  rw [hfmt, hfind]
  simp [Nat.not_le.mpr hatt, hne]

theorem verifyOTP_success_new (hash : String → Nat → String) (s : Store)
    (phone code : String) (userName : Option String) (now : Nat)
    (r : OtpRecord) (hfind : findActiveOtp s.otps phone now = some r)
    (hfmt : isValidOTP code = true)
    (hatt : r.attempts < r.max_attempts)
    (hmatch : hash code r.salt = r.otp_hash)
    (hnouser : findUserByPhone s.users phone = none) :
    verifyOTP hash s phone code userName now =
      ({ success := true, message := "User created and verified successfully",
         userId := some s.nextUserId, isNewUser := some true },
       { otps := updateOtp s.otps r.otp_id
             (fun x => { x with consumed_at := some now })
         users := s.users ++
             [{ user_id := s.nextUserId, phone_number := phone,
                user_name := userName.getD ("User_" ++ phone),
                auth_provider := "phone", is_phone_verified := true,
                last_login_at := none }]
         nextOtpId := s.nextOtpId
         nextUserId := s.nextUserId + 1 }) := by
  unfold verifyOTP
  rw [hfmt, hfind]
  simp [Nat.not_le.mpr hatt, hmatch, hnouser]

theorem verifyOTP_success_existing (hash : String → Nat → String) (s : Store)
    (phone code : String) (userName : Option String) (now : Nat)
    (r : OtpRecord) (u : UserIdentity)
    (hfind : findActiveOtp s.otps phone now = some r)
    (hfmt : isValidOTP code = true)
    (hatt : r.attempts < r.max_attempts)
    (hmatch : hash code r.salt = r.otp_hash)
    (huser : findUserByPhone s.users phone = some u) :
    verifyOTP hash s phone code userName now =
      ({ success := true, message := "User verified successfully",
         userId := some u.user_id, isNewUser := some false },
       { otps := updateOtp s.otps r.otp_id
             (fun x => { x with consumed_at := some now })
         users := updateUser s.users u.user_id
             (fun x => { x with is_phone_verified := true,
                                last_login_at := some now })
         nextOtpId := s.nextOtpId
         nextUserId := s.nextUserId }) := by
  unfold verifyOTP
  rw [hfmt, hfind]
  simp [Nat.not_le.mpr hatt, hmatch, huser]

theorem verifyOTP_success_pair (hash : String → Nat → String) (s : Store)
    (phone code : String) (userName : Option String) (now : Nat)
    (r : OtpRecord) (hfind : findActiveOtp s.otps phone now = some r)
    (hfmt : isValidOTP code = true)
    (hatt : r.attempts < r.max_attempts)
    (hmatch : hash code r.salt = r.otp_hash) :
    (verifyOTP hash s phone code userName now).1.success = true ∧
    (verifyOTP hash s phone code userName now).2.otps =
      updateOtp s.otps r.otp_id (fun x => { x with consumed_at := some now }) := by
  cases hu : findUserByPhone s.users phone with
  | none =>
      rw [verifyOTP_success_new hash s phone code userName now r hfind hfmt hatt
        hmatch hu]
      exact ⟨rfl, rfl⟩
  | some u =>
      rw [verifyOTP_success_existing hash s phone code userName now r u hfind hfmt
        hatt hmatch hu]
      exact ⟨rfl, rfl⟩

theorem consumed_all_inactive {s : Store} {r : OtpRecord} {phone : String}
    {now1 now2 : Nat}
    (hu : ∀ x ∈ s.otps, isActiveOtp phone now1 x = true → x = r)
    (ht : now1 ≤ now2) :
    ∀ x ∈ updateOtp s.otps r.otp_id
        (fun y => { y with consumed_at := some now1 }),
      isActiveOtp phone now2 x = false := by
  intro x hx
  rcases mem_updateOtp hx with ⟨y, hy, hxy⟩
  by_cases hid : (y.otp_id == r.otp_id) = true
  · rw [if_pos hid] at hxy
    subst hxy
    simp [isActiveOtp]
  · rw [if_neg hid] at hxy
    subst hxy
    cases hb : isActiveOtp phone now2 x with
    | false => rfl
    | true =>
        exfalso
        simp only [isActiveOtp, Bool.and_eq_true, beq_iff_eq,
          decide_eq_true_eq, Option.isNone_iff_eq_none] at hb
        have hact1 : isActiveOtp phone now1 x = true := by
          simp only [isActiveOtp, Bool.and_eq_true, beq_iff_eq,
            decide_eq_true_eq, Option.isNone_iff_eq_none]
          exact ⟨⟨hb.1.1, lt_of_le_of_lt ht hb.1.2⟩, hb.2⟩
        have hyr : x = r := hu x hy hact1
        rw [hyr] at hid
        exact hid (beq_self_eq_true _)

theorem verifyOTP_attempts_bounded (hash : String → Nat → String) (s : Store)
    (phone code : String) (userName : Option String) (now : Nat)
    (hinv : ∀ x ∈ s.otps, x.attempts ≤ x.max_attempts ∧ x.max_attempts = 5) :
    ∀ x ∈ (verifyOTP hash s phone code userName now).2.otps,
      x.attempts ≤ x.max_attempts ∧ x.max_attempts = 5 := by
  intro x hx
  cases hfmt : isValidOTP code with
  | false =>
      rw [verifyOTP_badFormat hash s phone code userName now hfmt] at hx
      exact hinv x hx
  | true =>
      cases hfind : findActiveOtp s.otps phone now with
      | none =>
          rw [verifyOTP_noRecord hash s phone code userName now hfmt hfind] at hx
          exact hinv x hx
      | some r =>
          by_cases hge : r.max_attempts ≤ r.attempts
          · rw [verifyOTP_maxAttempts hash s phone code userName now r hfind hfmt
              hge] at hx
            exact hinv x hx
          · have hatt : r.attempts < r.max_attempts := Nat.lt_of_not_le hge
            by_cases heq : hash code r.salt = r.otp_hash
            · rw [(verifyOTP_success_pair hash s phone code userName now r hfind
                hfmt hatt heq).2] at hx
              rcases mem_updateOtp hx with ⟨y, hy, hxy⟩
              by_cases hid : (y.otp_id == r.otp_id) = true
              · rw [if_pos hid] at hxy
                subst hxy
                exact hinv y hy
              · rw [if_neg hid] at hxy
                subst hxy
                exact hinv x hy
            · rw [verifyOTP_wrongCode hash s phone code userName now r hfind hfmt
                hatt heq] at hx
              rcases mem_updateOtp hx with ⟨y, hy, hxy⟩
              by_cases hid : (y.otp_id == r.otp_id) = true
              · rw [if_pos hid] at hxy
                subst hxy
                have hr5 := hinv r (findActiveOtp_mem hfind).1
                have hy5 := hinv y hy
                refine ⟨?_, hy5.2⟩
                show r.attempts + 1 ≤ y.max_attempts
                omega
              · rw [if_neg hid] at hxy
                subst hxy
                exact hinv x hy

theorem runVerifyCalls_attempts_bounded (hash : String → Nat → String)
    (calls : List VerifyCall) :
    ∀ s : Store,
      (∀ x ∈ s.otps, x.attempts ≤ x.max_attempts ∧ x.max_attempts = 5) →
      ∀ x ∈ (runVerifyCalls hash calls s).otps,
        x.attempts ≤ x.max_attempts ∧ x.max_attempts = 5 := by
  induction calls with
  | nil => intro s hinv; exact hinv
  | cons c cs ih =>
      intro s hinv
      exact ih _ (verifyOTP_attempts_bounded hash s c.phone c.code c.userName
        c.time hinv)

theorem runVerifyCalls_wrong_run (hash : String → Nat → String) (r : OtpRecord)
    (phone : String) (hphone : r.phone_number = phone)
    (hcons : r.consumed_at = none) (hmax : r.max_attempts = 5) :
    ∀ (wrongs : List VerifyCall) (n : Nat) (u : Store),
      u.otps = [{ r with attempts := n }] →
      (∀ c ∈ wrongs, c.phone = phone ∧ isValidOTP c.code = true ∧
        hash c.code r.salt ≠ r.otp_hash ∧ c.time < r.expires_at) →
      n + wrongs.length ≤ 5 →
      runVerifyCalls hash wrongs u =
        { u with otps := [{ r with attempts := n + wrongs.length }] } := by
  intro wrongs
  induction wrongs with
  | nil =>
      intro n u hu _ _
      show u = { u with otps := [{ r with attempts := n + 0 }] }
      cases u
      simp_all
  | cons c cs ih =>
      intro n u hu hw hn
      have hc := hw c (List.mem_cons_self c cs)
      have hn' : n + cs.length + 1 ≤ 5 := by
        rw [List.length_cons] at hn
        omega
      have hfind : findActiveOtp u.otps c.phone c.time =
          some { r with attempts := n } := by
        apply findActiveOtp_unique
        · rw [hu]; exact List.mem_cons_self _ _
        · simp only [isActiveOtp, Bool.and_eq_true, beq_iff_eq,
            decide_eq_true_eq, Option.isNone_iff_eq_none]
          exact ⟨⟨by rw [hphone, hc.1], hc.2.2.2⟩, hcons⟩
        · intro x hx _
          rw [hu] at hx
          simpa using hx
      have hattn : ({ r with attempts := n } : OtpRecord).attempts <
          ({ r with attempts := n } : OtpRecord).max_attempts := by
        show n < r.max_attempts
        omega
      have hstep : verifyOTP hash u c.phone c.code c.userName c.time =
          ({ success := false, message := "Invalid OTP",
             userId := none, isNewUser := none },
           { u with otps := [{ r with attempts := n + 1 }] }) := by
        have hne : hash c.code ({ r with attempts := n } : OtpRecord).salt ≠
            ({ r with attempts := n } : OtpRecord).otp_hash := hc.2.2.1
        have h1 := verifyOTP_wrongCode hash u c.phone c.code c.userName c.time
          { r with attempts := n } hfind hc.2.1 hattn hne
        rw [h1]
        congr 1
        rw [hu]
        simp [updateOtp]
      show runVerifyCalls hash cs (verifyOTP hash u c.phone c.code c.userName
        c.time).2 = _
      rw [hstep]
      have := ih (n + 1) { u with otps := [{ r with attempts := n + 1 }] }
        rfl (fun x hx => hw x (List.mem_cons_of_mem c hx)) (by simp at hn ⊢; omega)
      rw [this]
      cases u
      simp
      omega

theorem findUserByPhone_append_self {l : List UserIdentity} {phone : String}
    (h : findUserByPhone l phone = none) (u : UserIdentity)
    (hu : u.phone_number = phone) :
    findUserByPhone (l ++ [u]) phone = some u := by
  unfold findUserByPhone at *
  induction l with
  | nil => simp [List.find?, hu]
  | cons v vs ih =>
      rw [List.cons_append, List.find?]
      rw [List.find?] at h
      cases hv : (v.phone_number == phone) with
      | true => rw [hv] at h; cases h
      | false =>
          rw [hv] at h
          exact ih h

/-! ## Claims -/

/-- C1: the token round-trip claim fails on the code. `makeSignedJwt` stamps
issuer "your-api" and audience "your-web" over whatever the caller put in the
payload, while `decryptAndVerify` requires issuer "burning-sawals-api" and
audience "burning-sawals"; hence authenticating a token produced by the
issuer yields `Unauthorized` for every payload, every matching key pair and
secret, and every authentication time — including before the 7-day expiry. -/
theorem C1_token_roundtrip_always_unauthorized (secret pubKeyId : String)
    (payload : JwtClaims) (now tAuth : Nat) :
    (makeSignedJwt secret payload now).payload.iss = "your-api" ∧
    (makeSignedJwt secret payload now).payload.aud = "your-web" ∧
    decryptAndVerify pubKeyId secret
        (encryptJwt pubKeyId (makeSignedJwt secret payload now)) tAuth =
      .error .Unauthorized := by
  refine ⟨rfl, rfl, ?_⟩
  simp [decryptAndVerify, encryptJwt, makeSignedJwt]

/-- C6 (amended): every code produced by `generateOTP` lies in
[100000, 999999]; in particular its decimal rendering has exactly six digits
but never a leading zero, so only 9·10⁵ of the 10⁶ six-digit strings are
possible outputs. -/
theorem C6_generateOTP_range (q : ℚ) (h0 : 0 ≤ q) (h1 : q < 1) :
    100000 ≤ generateOTP q ∧ generateOTP q ≤ 999999 :=
  ⟨generateOTP_lower h0, generateOTP_upper h1⟩

/-- C6 witness: the range theorem applied at the concrete randomness 0. -/
theorem C6_generateOTP_range_witness :
    (0 : ℚ) ≤ 0 ∧ (0 : ℚ) < 1 ∧
    (100000 ≤ generateOTP 0 ∧ generateOTP 0 ≤ 999999) :=
  ⟨by decide, by decide, C6_generateOTP_range 0 (by decide) (by decide)⟩

/-- C6 counterexample: contrary to the claim, no randomness value yields a
code below 100000, so a zero-padded code such as "012345" is impossible and
the code space is not all of the 10⁶ six-digit strings. -/
theorem C6_no_leading_zero : ¬LeadingZeroPossible := by
  rintro ⟨q, hq0, _, hlt⟩
  have := generateOTP_lower hq0
  omega

/-- C7: for every valid Indian phone number (and any generated code, salt,
clock and SMS outcome), issuance succeeds and appends exactly one record with
a 10-minute expiry window, `attempts` 0, `max_attempts` 5 and no consumption
mark. -/
theorem C7_issue_happy_path (hash : String → Nat → String) (s : Store)
    (phoneNumber otp : String) (salt now : Nat) (sms : SmsOutcome)
    (hval : isValidIndianPhoneNumber phoneNumber = true) :
    (generateAndSendOTP hash s phoneNumber otp salt now sms).1.success = true ∧
    ∃ r : OtpRecord,
      (generateAndSendOTP hash s phoneNumber otp salt now sms).2.otps =
        s.otps ++ [r] ∧
      r.expires_at - r.created_at = 10 * 60 * 1000 ∧
      r.attempts = 0 ∧ r.max_attempts = 5 ∧ r.consumed_at = none := by
  rw [generateAndSendOTP_valid hash s phoneNumber otp salt now sms hval]
  refine ⟨rfl, { otp_id := s.nextOtpId, phone_number := phoneNumber,
                 otp_hash := hash otp salt, salt := salt, created_at := now,
                 expires_at := now + 10 * 60 * 1000, attempts := 0,
                 max_attempts := 5, consumed_at := none },
          rfl, ?_, rfl, rfl, rfl⟩
  show now + 10 * 60 * 1000 - now = 10 * 60 * 1000
  omega

/-- C7 witness: the happy path at phone "9876543210" on the empty store. -/
theorem C7_issue_happy_path_witness :
    isValidIndianPhoneNumber "9876543210" = true ∧
    ((generateAndSendOTP hashW storeEmpty "9876543210" "123456" 7 1000
        SmsOutcome.notConfigured).1.success = true ∧
     ∃ r : OtpRecord,
       (generateAndSendOTP hashW storeEmpty "9876543210" "123456" 7 1000
           SmsOutcome.notConfigured).2.otps = storeEmpty.otps ++ [r] ∧
       r.expires_at - r.created_at = 10 * 60 * 1000 ∧
       r.attempts = 0 ∧ r.max_attempts = 5 ∧ r.consumed_at = none) :=
  ⟨by decide, C7_issue_happy_path hashW storeEmpty "9876543210" "123456" 7 1000
    SmsOutcome.notConfigured (by decide)⟩

/-- C8: for every phone string that fails the Indian-mobile format check
(which first strips non-digit characters), issuance fails with the
invalid-format message and leaves the store untouched. -/
theorem C8_issue_rejects_invalid_phone (hash : String → Nat → String)
    (s : Store) (phoneNumber otp : String) (salt now : Nat)
    (sms : SmsOutcome)
    (hinv : isValidIndianPhoneNumber phoneNumber = false) :
    generateAndSendOTP hash s phoneNumber otp salt now sms =
      ({ success := false, message := "Invalid phone number format",
         otpId := none }, s) := by
  simp [generateAndSendOTP, hinv]

/-- C8 witness: the rejection at the 5-digit string "12345". -/
theorem C8_issue_rejects_invalid_phone_witness :
    isValidIndianPhoneNumber "12345" = false ∧
    generateAndSendOTP hashW storeEmpty "12345" "123456" 7 1000
        SmsOutcome.providerAccepted =
      ({ success := false, message := "Invalid phone number format",
         otpId := none }, storeEmpty) :=
  ⟨by decide, C8_issue_rejects_invalid_phone hashW storeEmpty "12345" "123456"
    7 1000 SmsOutcome.providerAccepted (by decide)⟩

/-- C10 (implicit): `sendOTP` reports success for every provider outcome
(unconfigured, provider accepted, provider rejected, request threw), so the
rollback branch of `generateAndSendOTP` that would delete the new record and
fail with "Failed to send OTP" is unreachable: every issuance that passes
validation succeeds and leaves the record persisted. -/
theorem C10_dispatch_failure_unreachable :
    (∀ o : SmsOutcome, sendOTP o = true) ∧
    ∀ (hash : String → Nat → String) (s : Store) (phoneNumber otp : String)
      (salt now : Nat) (sms : SmsOutcome),
      isValidIndianPhoneNumber phoneNumber = true →
      generateAndSendOTP hash s phoneNumber otp salt now sms =
        ({ success := true, message := "OTP sent successfully",
           otpId := some s.nextOtpId },
         { s with
             otps := s.otps ++
               [{ otp_id := s.nextOtpId, phone_number := phoneNumber,
                  otp_hash := hash otp salt, salt := salt, created_at := now,
                  expires_at := now + 10 * 60 * 1000, attempts := 0,
                  max_attempts := 5, consumed_at := none }]
             nextOtpId := s.nextOtpId + 1 }) := by
  refine ⟨sendOTP_eq_true, ?_⟩
  intro hash s phoneNumber otp salt now sms hval
  exact generateAndSendOTP_valid hash s phoneNumber otp salt now sms hval

/-- C10 witness: a provider-rejected dispatch still succeeds and persists the
record. -/
theorem C10_dispatch_failure_unreachable_witness :
    sendOTP SmsOutcome.providerRejected = true ∧
    isValidIndianPhoneNumber "9876543210" = true ∧
    generateAndSendOTP hashW storeEmpty "9876543210" "123456" 7 1000
        SmsOutcome.providerRejected =
      ({ success := true, message := "OTP sent successfully",
         otpId := some storeEmpty.nextOtpId },
       { storeEmpty with
           otps := storeEmpty.otps ++
             [{ otp_id := storeEmpty.nextOtpId, phone_number := "9876543210",
                otp_hash := hashW "123456" 7, salt := 7, created_at := 1000,
                expires_at := 1000 + 10 * 60 * 1000, attempts := 0,
                max_attempts := 5, consumed_at := none }]
           nextOtpId := storeEmpty.nextOtpId + 1 }) :=
  ⟨C10_dispatch_failure_unreachable.1 SmsOutcome.providerRejected, by decide,
   C10_dispatch_failure_unreachable.2 hashW storeEmpty "9876543210" "123456"
     7 1000 SmsOutcome.providerRejected (by decide)⟩

/-- C4 (amended): verification failures are generic but DO distinguish a
wrong code from a missing/expired record: with no active record the verifier
returns "Invalid or expired OTP", while a hash mismatch on an active record
within the attempt budget returns the distinct message "Invalid OTP". -/
theorem C4_failure_messages_distinct :
    (∀ (hash : String → Nat → String) (s : Store) (phone otp : String)
       (userName : Option String) (now : Nat),
       isValidOTP otp = true →
       findActiveOtp s.otps phone now = none →
       (verifyOTP hash s phone otp userName now).1 =
         { success := false, message := "Invalid or expired OTP",
           userId := none, isNewUser := none }) ∧
    (∀ (hash : String → Nat → String) (s : Store) (phone otp : String)
       (userName : Option String) (now : Nat) (r : OtpRecord),
       isValidOTP otp = true →
       findActiveOtp s.otps phone now = some r →
       r.attempts < r.max_attempts →
       hash otp r.salt ≠ r.otp_hash →
       (verifyOTP hash s phone otp userName now).1 =
         { success := false, message := "Invalid OTP",
           userId := none, isNewUser := none }) ∧
    ("Invalid OTP" : String) ≠ "Invalid or expired OTP" := by
  refine ⟨?_, ?_, by decide⟩
  · intro hash s phone otp userName now hfmt hnone
    rw [verifyOTP_noRecord hash s phone otp userName now hfmt hnone]
  · intro hash s phone otp userName now r hfmt hfind hatt hne
    rw [verifyOTP_wrongCode hash s phone otp userName now r hfind hfmt hatt hne]

/-- C4 witness: both failure shapes exercised on the single-record store. -/
theorem C4_failure_messages_distinct_witness :
    isValidOTP "654321" = true ∧
    findActiveOtp storeOne.otps "9999999999" 2000 = none ∧
    (verifyOTP hashW storeOne "9999999999" "654321" none 2000).1 =
      { success := false, message := "Invalid or expired OTP",
        userId := none, isNewUser := none } ∧
    findActiveOtp storeOne.otps "9876543210" 2000 = some recordW ∧
    (verifyOTP hashW storeOne "9876543210" "654321" none 2000).1 =
      { success := false, message := "Invalid OTP",
        userId := none, isNewUser := none } :=
  ⟨by decide, by decide,
   C4_failure_messages_distinct.1 hashW storeOne "9999999999" "654321" none
     2000 (by decide) (by decide),
   by decide,
   C4_failure_messages_distinct.2.1 hashW storeOne "9876543210" "654321" none
     2000 recordW (by decide) (by decide) (by decide) (by decide)⟩

/-- C4 counterexample: against the same store, a wrong code for the phone
with an active record yields "Invalid OTP" while a phone with no record
yields "Invalid or expired OTP" — the two failures are distinguishable,
contradicting the claim that both report "invalid or expired OTP". -/
theorem C4_counterexample :
    (verifyOTP hashW storeOne "9876543210" "654321" none 2000).1.message =
      "Invalid OTP" ∧
    (verifyOTP hashW storeOne "9999999999" "654321" none 2000).1.message =
      "Invalid or expired OTP" ∧
    ("Invalid OTP" : String) ≠ "Invalid or expired OTP" :=
  ⟨by decide, by decide, by decide⟩

/-- C5 (amended): issuance stores the RAW phone argument as the record key —
`normalizePhoneNumber` is never applied on this path — and the verifier's
record filter matches on raw string equality, so any differently-spelled
input (even one normalizing to the same 10 digits) does not address the
record. -/
theorem C5_raw_phone_key (hash : String → Nat → String) (s : Store)
    (phoneNumber otp : String) (salt now : Nat) (sms : SmsOutcome)
    (hval : isValidIndianPhoneNumber phoneNumber = true) :
    ∃ r : OtpRecord,
      (generateAndSendOTP hash s phoneNumber otp salt now sms).2.otps =
        s.otps ++ [r] ∧
      r.phone_number = phoneNumber ∧
      ∀ (p' : String) (t : Nat), p' ≠ phoneNumber →
        isActiveOtp p' t r = false := by
  rw [generateAndSendOTP_valid hash s phoneNumber otp salt now sms hval]
  refine ⟨{ otp_id := s.nextOtpId, phone_number := phoneNumber,
            otp_hash := hash otp salt, salt := salt, created_at := now,
            expires_at := now + 10 * 60 * 1000, attempts := 0,
            max_attempts := 5, consumed_at := none },
          rfl, rfl, ?_⟩
  intro p' t hne
  have hbeq : (phoneNumber == p') = false :=
    beq_eq_false_iff_ne.mpr fun h => hne h.symm
  simp [isActiveOtp, hbeq]

/-- C5 witness: the raw-key property at the punctuated input "98765-43210". -/
theorem C5_raw_phone_key_witness :
    isValidIndianPhoneNumber "98765-43210" = true ∧
    ∃ r : OtpRecord,
      (generateAndSendOTP hashW storeEmpty "98765-43210" "123456" 7 1000
          SmsOutcome.notConfigured).2.otps = storeEmpty.otps ++ [r] ∧
      r.phone_number = "98765-43210" ∧
      ∀ (p' : String) (t : Nat), p' ≠ "98765-43210" →
        isActiveOtp p' t r = false :=
  ⟨by decide, C5_raw_phone_key hashW storeEmpty "98765-43210" "123456" 7 1000
    SmsOutcome.notConfigured (by decide)⟩

/-- C5 counterexample: "98765-43210" and "9876543210" normalize to the same
10 digits, yet after issuing under the first spelling, verifying under the
second spelling with the CORRECT code, before expiry, fails with "Invalid or
expired OTP" — the two inputs do not address the same records. -/
theorem C5_counterexample :
    normalizePhoneNumber "98765-43210" = normalizePhoneNumber "9876543210" ∧
    (verifyOTP hashW
        (generateAndSendOTP hashW storeEmpty "98765-43210" "123456" 7 1000
          SmsOutcome.notConfigured).2
        "9876543210" "123456" none 2000).1 =
      { success := false, message := "Invalid or expired OTP",
        userId := none, isNewUser := none } :=
  ⟨by decide, by decide⟩

/-- C3: for a phone whose only active (unexpired, unconsumed) record is `r`,
a first verify with the correct code succeeds and stamps `consumed_at`, and
a second verify with the same code at any later time fails with "Invalid or
expired OTP" and leaves the store unchanged — the selection filter excludes
consumed records. -/
theorem C3_consumption_idempotent (hash : String → Nat → String) (s : Store)
    (phone code : String) (userName userName2 : Option String)
    (now1 now2 : Nat) (r : OtpRecord)
    (hr : r ∈ s.otps)
    (hact : isActiveOtp phone now1 r = true)
    (huniq : ∀ x ∈ s.otps, isActiveOtp phone now1 x = true → x = r)
    (hatt : r.attempts < r.max_attempts)
    (hfmt : isValidOTP code = true)
    (hmatch : hash code r.salt = r.otp_hash)
    (ht : now1 ≤ now2) :
    (verifyOTP hash s phone code userName now1).1.success = true ∧
    (∃ x ∈ (verifyOTP hash s phone code userName now1).2.otps,
        x.otp_id = r.otp_id ∧ x.consumed_at = some now1) ∧
    verifyOTP hash (verifyOTP hash s phone code userName now1).2 phone code
        userName2 now2 =
      ({ success := false, message := "Invalid or expired OTP",
         userId := none, isNewUser := none },
       (verifyOTP hash s phone code userName now1).2) := by
  have hfind := findActiveOtp_unique hr hact huniq
  have hpair := verifyOTP_success_pair hash s phone code userName now1 r hfind
    hfmt hatt hmatch
  refine ⟨hpair.1, ?_, ?_⟩
  · rw [hpair.2]
    refine ⟨{ r with consumed_at := some now1 }, ?_, rfl, rfl⟩
    unfold updateOtp
    apply List.mem_map.mpr
    exact ⟨r, hr, by simp⟩
  · apply verifyOTP_noRecord hash _ phone code userName2 now2 hfmt
    rw [hpair.2]
    exact findActiveOtp_none (consumed_all_inactive huniq ht)

/-- C3 witness: consume-then-retry on the single-record store. -/
theorem C3_consumption_idempotent_witness :
    recordW ∈ storeOne.otps ∧
    ((verifyOTP hashW storeOne "9876543210" "123456" none 2000).1.success =
        true ∧
     (∃ x ∈ (verifyOTP hashW storeOne "9876543210" "123456" none 2000).2.otps,
         x.otp_id = recordW.otp_id ∧ x.consumed_at = some 2000) ∧
     verifyOTP hashW
         (verifyOTP hashW storeOne "9876543210" "123456" none 2000).2
         "9876543210" "123456" (some "abc") 3000 =
       ({ success := false, message := "Invalid or expired OTP",
          userId := none, isNewUser := none },
        (verifyOTP hashW storeOne "9876543210" "123456" none 2000).2)) :=
  ⟨by decide,
   C3_consumption_idempotent hashW storeOne "9876543210" "123456" none
     (some "abc") 2000 3000 recordW (by decide) (by decide) (by decide)
     (by decide) (by decide) (by decide) (by decide)⟩

/-- C9: when phone `phone` has no existing identity, the first successful
verification creates the identity (`is_phone_verified` true, provider
"phone", `user_name` the supplied name or "User_" ++ phone) and returns
`isNewUser = some true`; after a new record `r2` is issued for the same
phone, a second successful verification returns `isNewUser = some false` and
updates `is_phone_verified` and `last_login_at` on the existing identity in
place (an `updateUser`, with no identity appended). -/
theorem C9_new_vs_existing_identity (hash : String → Nat → String) (s : Store)
    (phone code code2 : String) (userName : Option String)
    (now1 now2 : Nat) (r r2 : OtpRecord)
    (hr : r ∈ s.otps)
    (hact : isActiveOtp phone now1 r = true)
    (huniq : ∀ x ∈ s.otps, isActiveOtp phone now1 x = true → x = r)
    (hatt : r.attempts < r.max_attempts)
    (hfmt : isValidOTP code = true)
    (hmatch : hash code r.salt = r.otp_hash)
    (hnouser : findUserByPhone s.users phone = none)
    (ht : now1 ≤ now2)
    (hr2phone : r2.phone_number = phone)
    (hr2exp : now2 < r2.expires_at)
    (hr2cons : r2.consumed_at = none)
    (hr2att : r2.attempts < r2.max_attempts)
    (hfmt2 : isValidOTP code2 = true)
    (hmatch2 : hash code2 r2.salt = r2.otp_hash) :
    verifyOTP hash s phone code userName now1 =
      ({ success := true, message := "User created and verified successfully",
         userId := some s.nextUserId, isNewUser := some true },
       { otps := updateOtp s.otps r.otp_id
             (fun x => { x with consumed_at := some now1 })
         users := s.users ++
             [{ user_id := s.nextUserId, phone_number := phone,
                user_name := userName.getD ("User_" ++ phone),
                auth_provider := "phone", is_phone_verified := true,
                last_login_at := none }]
         nextOtpId := s.nextOtpId
         nextUserId := s.nextUserId + 1 }) ∧
    verifyOTP hash
        { otps := updateOtp s.otps r.otp_id
              (fun x => { x with consumed_at := some now1 }) ++ [r2]
          users := s.users ++
              [{ user_id := s.nextUserId, phone_number := phone,
                 user_name := userName.getD ("User_" ++ phone),
                 auth_provider := "phone", is_phone_verified := true,
                 last_login_at := none }]
          nextOtpId := s.nextOtpId
          nextUserId := s.nextUserId + 1 }
        phone code2 none now2 =
      ({ success := true, message := "User verified successfully",
         userId := some s.nextUserId, isNewUser := some false },
       { otps := updateOtp
             (updateOtp s.otps r.otp_id
               (fun x => { x with consumed_at := some now1 }) ++ [r2])
             r2.otp_id (fun x => { x with consumed_at := some now2 })
         users := updateUser
             (s.users ++
               [{ user_id := s.nextUserId, phone_number := phone,
                  user_name := userName.getD ("User_" ++ phone),
                  auth_provider := "phone", is_phone_verified := true,
                  last_login_at := none }])
             s.nextUserId
             (fun x => { x with is_phone_verified := true,
                                last_login_at := some now2 })
         nextOtpId := s.nextOtpId
         nextUserId := s.nextUserId + 1 }) := by
  have hfind := findActiveOtp_unique hr hact huniq
  constructor
  · exact verifyOTP_success_new hash s phone code userName now1 r hfind hfmt
      hatt hmatch hnouser
  · have hfind2 : findActiveOtp
        (updateOtp s.otps r.otp_id
          (fun x => { x with consumed_at := some now1 }) ++ [r2])
        phone now2 = some r2 := by
      apply findActiveOtp_unique
      · exact List.mem_append_right _ (List.mem_singleton.mpr rfl)
      · simp only [isActiveOtp, Bool.and_eq_true, beq_iff_eq,
          decide_eq_true_eq, Option.isNone_iff_eq_none]
        exact ⟨⟨hr2phone, hr2exp⟩, hr2cons⟩
      · intro x hx hxact
        rcases List.mem_append.mp hx with hleft | hright
        · exact absurd hxact (by
            rw [consumed_all_inactive huniq ht x hleft]
            exact Bool.false_ne_true)
        · exact List.mem_singleton.mp hright
    have hu2 : findUserByPhone
        (s.users ++
          [{ user_id := s.nextUserId, phone_number := phone,
             user_name := userName.getD ("User_" ++ phone),
             auth_provider := "phone", is_phone_verified := true,
             last_login_at := none }]) phone =
        some { user_id := s.nextUserId, phone_number := phone,
               user_name := userName.getD ("User_" ++ phone),
               auth_provider := "phone", is_phone_verified := true,
               last_login_at := none } :=
      findUserByPhone_append_self hnouser _ rfl
    exact verifyOTP_success_existing hash
      { otps := updateOtp s.otps r.otp_id
            (fun x => { x with consumed_at := some now1 }) ++ [r2]
        users := s.users ++
            [{ user_id := s.nextUserId, phone_number := phone,
               user_name := userName.getD ("User_" ++ phone),
               auth_provider := "phone", is_phone_verified := true,
               last_login_at := none }]
        nextOtpId := s.nextOtpId
        nextUserId := s.nextUserId + 1 }
      phone code2 none now2 r2
      { user_id := s.nextUserId, phone_number := phone,
        user_name := userName.getD ("User_" ++ phone),
        auth_provider := "phone", is_phone_verified := true,
        last_login_at := none }
      hfind2 hfmt2 hr2att hmatch2 hu2

/-- C9 witness: the first verification on the single-record store creates
user 1 as a new user; its hypotheses (including those for the follow-up
verification against `recordW2`) are discharged concretely. -/
theorem C9_new_vs_existing_identity_witness :
    (verifyOTP hashW storeOne "9876543210" "123456" (some "abc") 2000).1 =
      { success := true, message := "User created and verified successfully",
        userId := some 1, isNewUser := some true } := by
  have h := C9_new_vs_existing_identity hashW storeOne "9876543210" "123456"
    "654321" (some "abc") 2000 6000 recordW recordW2 (by decide) (by decide)
    (by decide) (by decide) (by decide) (by decide) (by decide) (by decide)
    (by decide) (by decide) (by decide) (by decide) (by decide) (by decide)
  rw [h.1]
  rfl

/-- C2: for a store holding a single fresh record with `max_attempts` 5,
after exactly 5 wrong-code verify calls the stored `attempts` equals 5; a
6th call — with ANY well-formed code, including the correct one — fails with
"Maximum OTP attempts exceeded" and mutates nothing; and under any sequence
of verify calls whatsoever the stored `attempts` counter never exceeds 5. -/
theorem C2_attempt_budget (hash : String → Nat → String) (s : Store)
    (r : OtpRecord) (phone : String) (wrongs : List VerifyCall)
    (hs : s.otps = [r]) (hphone : r.phone_number = phone)
    (hatt0 : r.attempts = 0) (hmax : r.max_attempts = 5)
    (hcons : r.consumed_at = none) (hlen : wrongs.length = 5)
    (hw : ∀ c ∈ wrongs, c.phone = phone ∧ isValidOTP c.code = true ∧
      hash c.code r.salt ≠ r.otp_hash ∧ c.time < r.expires_at) :
    runVerifyCalls hash wrongs s =
      { s with otps := [{ r with attempts := 5 }] } ∧
    (∀ (code : String) (t : Nat), isValidOTP code = true →
      t < r.expires_at →
      verifyOTP hash (runVerifyCalls hash wrongs s) phone code none t =
        ({ success := false, message := "Maximum OTP attempts exceeded",
           userId := none, isNewUser := none },
         runVerifyCalls hash wrongs s)) ∧
    (∀ calls : List VerifyCall,
      ∀ x ∈ (runVerifyCalls hash calls s).otps, x.attempts ≤ 5) := by
  have hs0 : s.otps = [{ r with attempts := 0 }] := by
    rw [hs, ← hatt0]
  have hrun := runVerifyCalls_wrong_run hash r phone hphone hcons hmax wrongs
    0 s hs0 hw (by rw [hlen])
  simp only [hlen, Nat.zero_add] at hrun
  refine ⟨hrun, ?_, ?_⟩
  · intro code t hcfmt htl
    rw [hrun]
    apply verifyOTP_maxAttempts hash _ phone code none t
      { r with attempts := 5 }
    · apply findActiveOtp_unique
      · exact List.mem_cons_self _ _
      · simp only [isActiveOtp, Bool.and_eq_true, beq_iff_eq,
          decide_eq_true_eq, Option.isNone_iff_eq_none]
        exact ⟨⟨hphone, htl⟩, hcons⟩
      · intro x hx _
        simpa using hx
    · exact hcfmt
    · show ({ r with attempts := 5 } : OtpRecord).max_attempts ≤ 5
      show r.max_attempts ≤ 5
      omega
  · intro calls x hx
    have hinv0 : ∀ y ∈ s.otps,
        y.attempts ≤ y.max_attempts ∧ y.max_attempts = 5 := by
      intro y hy
      rw [hs] at hy
      have hyr : y = r := by simpa using hy
      subst hyr
      exact ⟨by omega, hmax⟩
    have := runVerifyCalls_attempts_bounded hash calls s hinv0 x hx
    omega

/-- C2 witness: after the five concrete wrong calls in `wrongCallsW`, a
verify with the correct code "123456" is rejected with the attempts-exceeded
message and an unchanged store. -/
theorem C2_attempt_budget_witness :
    isValidOTP "123456" = true ∧
    verifyOTP hashW (runVerifyCalls hashW wrongCallsW storeOne) "9876543210"
        "123456" none 3000 =
      ({ success := false, message := "Maximum OTP attempts exceeded",
         userId := none, isNewUser := none },
       runVerifyCalls hashW wrongCallsW storeOne) :=
  ⟨by decide,
   (C2_attempt_budget hashW storeOne recordW "9876543210" wrongCallsW
      (by decide) (by decide) (by decide) (by decide) (by decide) (by decide)
      (by decide)).2.1 "123456" 3000 (by decide) (by decide)⟩

end BurningSawals
